import Mathlib

/-!
Shallow embedding of the procurement core (Purchase Order aggregate) of the
repository: `Money`, `Currency`, `PurchaseOrderState`, `PurchaseOrderItem`,
`PurchaseOrder`, all from `src`.

Modelling conventions:
* JS numbers are modelled as exact rationals (`ℚ`), extended with the
  non-finite values `NaN`, `Infinity`, `-Infinity` in the type `JSNum`
  wherever a source guard tests `Number.isFinite`.  `Number(x.toFixed(2))`
  is modelled as rounding half-up to hundredths (`roundTo2`), following the
  ECMA-262 rule for `toFixed` that picks the larger candidate at ties for
  the non-negative amounts that occur here.
* A JS `throw new ValidationError(msg)` becomes `Except.error ⟨msg⟩`.
* Arguments whose source validation distinguishes proper instances from
  arbitrary JS values are modelled by small sum types (`CurrencyArg`,
  `ProductIdArg`, `JSStr`, `MoneyArg`) with one constructor for the proper
  instance and constructors for non-instance values.
* Methods of the aggregate root that mutate `this` are modelled as
  functions returning the method result (`Except ValidationError Unit`)
  paired with the object state after the call, so that the object observed
  after a thrown exception is represented faithfully.
-/

/-- Error type of the repository: a validation error carrying a message. -/
structure ValidationError where
  message : String
deriving DecidableEq, Repr

/-- A JavaScript number: an exact rational, or one of the non-finite values. -/
inductive JSNum where
  | num (q : ℚ)
  | nan
  | posInf
  | negInf
deriving DecidableEq, Repr

/-- JS `Number.isFinite`. -/
def JSNum.isFinite : JSNum → Bool
  | .num _ => true
  | _ => false

/-- JS comparison `x < 0` (false for NaN). -/
def JSNum.ltZero : JSNum → Bool
  | .num q => decide (q < 0)
  | .nan => false
  | .posInf => false
  | .negInf => true

/-- JS `Number.isInteger`. -/
def JSNum.isInteger : JSNum → Bool
  | .num q => decide (q.den = 1)
  | _ => false

/-- Currency: closed enumeration of the valid codes of `currency.js`. -/
inductive Currency where
  | USD
  | EUR
  | GBP
  | JPY
deriving DecidableEq, Repr

/-- The `code` accessor of `Currency`. -/
def Currency.code : Currency → String
  | .USD => "USD"
  | .EUR => "EUR"
  | .GBP => "GBP"
  | .JPY => "JPY"

/-- `Currency.equals`: equality by code, which for the closed enumeration is
constructor equality. -/
def Currency.equals (a b : Currency) : Bool := a == b

/-- A JS value passed where a `Currency` is expected: either a genuine
`Currency` instance, some other (truthy unless empty-string) value such as a
string, or `undefined`. -/
inductive CurrencyArg where
  | val (c : Currency)
  | notCurrency (tag : String)
  | undef
deriving DecidableEq, Repr

/-- JS truthiness negation `!x` on a currency argument: objects are truthy,
a string is falsy iff empty, `undefined` is falsy. -/
def CurrencyArg.jsNot : CurrencyArg → Bool
  | .val _ => false
  | .notCurrency s => s.isEmpty
  | .undef => true

/-- In JS, `!currency instanceof Currency` parses as
`(!currency) instanceof Currency`; a boolean primitive is never an instance
of a class, so the test evaluates to `false` for every argument. -/
def boolInstanceOfCurrency (_b : Bool) : Bool := false

/-- `Number(x.toFixed(2))`: round half-up to two decimal places. -/
def roundTo2 (q : ℚ) : ℚ := (⌊q * 100 + 1/2⌋ : ℚ) / 100

/-- Rounding a non-negative amount to two decimals keeps it non-negative. -/
theorem roundTo2_nonneg {q : ℚ} (h : 0 ≤ q) : 0 ≤ roundTo2 q := by
  unfold roundTo2
  have h1 : (0 : ℤ) ≤ ⌊q * 100 + 1/2⌋ := by
    apply Int.floor_nonneg.mpr
    nlinarith
  have h2 : (0 : ℚ) ≤ (⌊q * 100 + 1/2⌋ : ℚ) := by exact_mod_cast h1
  linarith

/-- Rounding to two decimals fixes every value that is already a whole number
of hundredths. -/
theorem roundTo2_eq_self {x : ℚ} (h : ∃ n : ℤ, x = (n : ℚ) / 100) :
    roundTo2 x = x := by
  obtain ⟨n, rfl⟩ := h
  unfold roundTo2
  have h1 : (n : ℚ) / 100 * 100 + 1/2 = (n : ℚ) + 1/2 := by
    field_simp
  rw [h1]
  have h2 : ⌊(n : ℚ) + 1/2⌋ = n + ⌊(1/2 : ℚ)⌋ := Int.floor_int_add n (1/2 : ℚ)
  have h3 : ⌊(1/2 : ℚ)⌋ = 0 := by
    rw [Int.floor_eq_iff]
    norm_num
  rw [h2, h3]
  norm_num

/-- `Money`: a validated amount (always a non-negative whole number of
hundredths, the constructor's postcondition) bound to a `Currency`. -/
structure Money where
  amount : ℚ
  currency : Currency
  nonneg : 0 ≤ amount
  cents : ∃ n : ℤ, amount = (n : ℚ) / 100

/-- Two `Money` values with equal amount and currency are equal. -/
theorem Money.ext2 {a b : Money} (h1 : a.amount = b.amount)
    (h2 : a.currency = b.currency) : a = b := by
  cases a
  cases b
  dsimp at h1 h2
  subst h1
  subst h2
  rfl

/-- The `Money` constructor (`money.js`): rejects a non-finite or negative
amount and a non-`Currency` currency; stores the amount rounded to two
decimal places. -/
def Money.create (amount : JSNum) (currency : CurrencyArg) :
    Except ValidationError Money :=
  match amount with
  | .num q =>
    if h : 0 ≤ q then
      match currency with
      | .val c =>
        .ok { amount := roundTo2 q, currency := c,
              nonneg := roundTo2_nonneg h,
              cents := ⟨⌊q * 100 + 1/2⌋, rfl⟩ }
      | _ => .error ⟨"Currency must be an instance of Currency"⟩
    else .error ⟨"Amount must be a non-negative finite number"⟩
  | _ => .error ⟨"Amount must be a non-negative finite number"⟩

/-- `Money.add`: requires equal currencies, then builds a new `Money` from
the summed amounts through the constructor. -/
def Money.add (a other : Money) : Except ValidationError Money :=
  if !(Currency.equals a.currency other.currency) then
    .error ⟨"Can only add Money with the same currency"⟩
  else
    Money.create (.num (a.amount + other.amount)) (.val a.currency)

/-- `Money.multiply`: requires a finite non-negative multiplier, then builds
a new `Money` from the product through the constructor. -/
def Money.multiply (a : Money) (multiplier : JSNum) :
    Except ValidationError Money :=
  match multiplier with
  | .num m =>
    if m < 0 then .error ⟨"Multiplier must be a non-negative finite number"⟩
    else Money.create (.num (a.amount * m)) (.val a.currency)
  | _ => .error ⟨"Multiplier must be a non-negative finite number"⟩

/-- `Money.equals`: amounts and currencies both match. -/
def Money.equalsMoney (a b : Money) : Bool :=
  decide (a.amount = b.amount) && Currency.equals a.currency b.currency

/-- State value of a purchase order (`purchase-order-state.js`): the closed
set of `VALID_STATES`; the constructor validates membership, so the value is
always one of the six states. -/
inductive PurchaseOrderState where
  | Draft
  | Submitted
  | Approved
  | Shipped
  | Completed
  | Cancelled
deriving DecidableEq, Repr

/-- The `value` accessor: the state's string constant from `VALID_STATES`. -/
def PurchaseOrderState.value : PurchaseOrderState → String
  | .Draft => "Draft"
  | .Submitted => "Submitted"
  | .Approved => "Approved"
  | .Shipped => "Shipped"
  | .Completed => "Completed"
  | .Cancelled => "Cancelled"

/-- `isDraft()`: whether the value is `Draft`. -/
def PurchaseOrderState.isDraft : PurchaseOrderState → Bool
  | .Draft => true
  | _ => false

/-- `toSubmittedFrom`: requires the current state to be `Draft`.  The JS
method reads only its `currentState` parameter, never `this`, so it is
modelled as a function of the current state. -/
def PurchaseOrderState.toSubmittedFrom (currentState : PurchaseOrderState) :
    Except ValidationError PurchaseOrderState :=
  if currentState ≠ .Draft then
    .error ⟨"Cannot transition from " ++ currentState.value ++ " to Submitted"⟩
  else .ok .Submitted

/-- `toApprovedFrom`: requires the current state to be `Submitted`. -/
def PurchaseOrderState.toApprovedFrom (currentState : PurchaseOrderState) :
    Except ValidationError PurchaseOrderState :=
  if currentState ≠ .Submitted then
    .error ⟨"Cannot transition from " ++ currentState.value ++ " to Approved"⟩
  else .ok .Approved

/-- `toShippedFrom`: requires the current state to be `Approved`. -/
def PurchaseOrderState.toShippedFrom (currentState : PurchaseOrderState) :
    Except ValidationError PurchaseOrderState :=
  if currentState ≠ .Approved then
    .error ⟨"Cannot transition from " ++ currentState.value ++ " to Shipped"⟩
  else .ok .Shipped

/-- `toCompletedFrom`: requires the current state to be `Shipped`. -/
def PurchaseOrderState.toCompletedFrom (currentState : PurchaseOrderState) :
    Except ValidationError PurchaseOrderState :=
  if currentState ≠ .Shipped then
    .error ⟨"Cannot transition from " ++ currentState.value ++ " to Completed"⟩
  else .ok .Completed

/-- `toCancelledFrom`: rejects only a `Completed` current state. -/
def PurchaseOrderState.toCancelledFrom (currentState : PurchaseOrderState) :
    Except ValidationError PurchaseOrderState :=
  if currentState = .Completed then
    .error ⟨"Cannot transition from " ++ currentState.value ++ " to Cancelled"⟩
  else .ok .Cancelled

/-- `SupplierId` value object: an identifier string validated by the
external identifier service (out of scope per the spec). -/
structure SupplierId where
  value : String
deriving DecidableEq, Repr

/-- `ProductId` value object: an identifier string validated by the
external identifier service (out of scope per the spec). -/
structure ProductId where
  value : String
deriving DecidableEq, Repr

/-- `DateTime` value object: carries a validated timestamp, modelled as
milliseconds since the epoch. -/
structure DateTime where
  time : Int
deriving DecidableEq, Repr

/-- A JS value passed where a string is expected: a genuine string or some
non-string value. -/
inductive JSStr where
  | str (s : String)
  | notStr (tag : String)
deriving DecidableEq, Repr

/-- JS `typeof x === 'string'`. -/
def JSStr.isStr : JSStr → Bool
  | .str _ => true
  | .notStr _ => false

/-- A JS value passed where a `ProductId` instance is expected. -/
inductive ProductIdArg where
  | valid (p : ProductId)
  | invalid (tag : String)
deriving DecidableEq, Repr

/-- A JS value passed where a `Money` instance is expected. -/
inductive MoneyArg where
  | money (m : Money)
  | notMoney (tag : String)

/-- `PurchaseOrderItem`: a validated line item.  The recorded bounds on
`quantity` are the constructor's postcondition (`Number.isInteger(quantity)`,
`quantity > 0`, `quantity <= 1000`). -/
structure PurchaseOrderItem where
  orderId : String
  productId : ProductId
  quantity : ℚ
  unitPrice : Money
  qInt : quantity.den = 1
  qPos : 0 < quantity
  qLe : quantity ≤ 1000

/-- `PurchaseOrderItem` constructor: validates `orderId` (a non-empty
string), `productId` (a `ProductId` instance), `quantity` (an integer in
`[1, 1000]`: the guard `!Number.isInteger(quantity) || quantity <= 0 ||
quantity > 1000` is negated into the dependent condition), and `unitPrice`
(a `Money` instance), in source order. -/
def PurchaseOrderItem.create (orderId : JSStr) (productId : ProductIdArg)
    (quantity : JSNum) (unitPrice : MoneyArg) :
    Except ValidationError PurchaseOrderItem :=
  match orderId with
  | .notStr _ => .error ⟨"orderId must be a string"⟩
  | .str s =>
    if s.isEmpty then .error ⟨"orderId must be a string"⟩
    else
      match productId with
      | .invalid _ => .error ⟨"productId must be an instance of ProductId"⟩
      | .valid p =>
        match quantity with
        | .num q =>
          if h : q.den = 1 ∧ 0 < q ∧ q ≤ 1000 then
            match unitPrice with
            | .notMoney _ =>
              .error ⟨"unitPrice must be a valid Money instance"⟩
            | .money m =>
              .ok { orderId := s, productId := p, quantity := q,
                    unitPrice := m,
                    qInt := h.1, qPos := h.2.1, qLe := h.2.2 }
          else
            .error ⟨"quantity must be a positive integer not exceeding 1000"⟩
        | _ =>
          .error ⟨"quantity must be a positive integer not exceeding 1000"⟩

/-- `calculateSubtotal()`: unit price multiplied by quantity. -/
def PurchaseOrderItem.calculateSubtotal (it : PurchaseOrderItem) :
    Except ValidationError Money :=
  it.unitPrice.multiply (.num it.quantity)

/-- `PurchaseOrder` aggregate root.  The `currency` field keeps the raw
constructor argument, because the constructor's currency check never fires
(see `PurchaseOrder.create`) and the given value is stored as-is. -/
structure PurchaseOrder where
  id : String
  supplierId : SupplierId
  currency : CurrencyArg
  orderDate : DateTime
  items : List PurchaseOrderItem
  state : PurchaseOrderState

/-- `#MAX_ITEMS` of `purchase-order.js`. -/
def PurchaseOrder.MAX_ITEMS : Nat := 50

/-- `PurchaseOrder` constructor.  `freshId` stands for the external
`generateUUID()` call and `now` for the external clock read of
`new DateTime()`.  A missing `supplierId` is rejected; the currency guard
`if (!currency instanceof Currency)` compares a boolean against the class
and is therefore never taken (`boolInstanceOfCurrency`).  `orderDate`
defaults to `now` when no `DateTime` is given; items start empty and the
state starts as `Draft` (`new PurchaseOrderState()`). -/
def PurchaseOrder.create (freshId : String) (now : DateTime)
    (supplierId : Option SupplierId) (currency : CurrencyArg)
    (orderDate : Option DateTime) : Except ValidationError PurchaseOrder :=
  match supplierId with
  | none => .error ⟨"supplierId is required"⟩
  | some sid =>
    if boolInstanceOfCurrency currency.jsNot then
      .error ⟨"currency must be an instance of Currency"⟩
    else
      .ok { id := freshId, supplierId := sid, currency := currency,
            orderDate := orderDate.getD now, items := [],
            state := .Draft }

/-- `addItem`: draft-state, item-cap and unit-price guards in source order,
then the `Money` construction for the unit price, then the
`PurchaseOrderItem` construction, and only then the push onto the item
list.  Returns the method result paired with the aggregate after the call. -/
def PurchaseOrder.addItem (po : PurchaseOrder) (productId : ProductIdArg)
    (quantity : JSNum) (unitPrice : JSNum) :
    Except ValidationError Unit × PurchaseOrder :=
  if !po.state.isDraft then
    (.error ⟨"Cannot add items to a non-draft purchase order"⟩, po)
  else if PurchaseOrder.MAX_ITEMS ≤ po.items.length then
    (.error ⟨"Cannot add more than 50 items to a purchase order"⟩, po)
  else if !unitPrice.isFinite || unitPrice.ltZero then
    (.error ⟨"unitPrice must be a non-negative number"⟩, po)
  else
    match Money.create unitPrice po.currency with
    | .error e => (.error e, po)
    | .ok m =>
      match PurchaseOrderItem.create (.str po.id) productId quantity
          (.money m) with
      | .error e => (.error e, po)
      | .ok item => (.ok (), { po with items := po.items ++ [item] })

/-- `approve()`: replaces the state by `toApprovedFrom` of the current
state, or leaves the aggregate as it was when the transition throws. -/
def PurchaseOrder.approve (po : PurchaseOrder) :
    Except ValidationError Unit × PurchaseOrder :=
  match PurchaseOrderState.toApprovedFrom po.state with
  | .error e => (.error e, po)
  | .ok s => (.ok (), { po with state := s })

/-- `ship()`: replaces the state by `toShippedFrom` of the current state. -/
def PurchaseOrder.ship (po : PurchaseOrder) :
    Except ValidationError Unit × PurchaseOrder :=
  match PurchaseOrderState.toShippedFrom po.state with
  | .error e => (.error e, po)
  | .ok s => (.ok (), { po with state := s })

/-- `complete()`: replaces the state by `toCompletedFrom` of the current
state. -/
def PurchaseOrder.complete (po : PurchaseOrder) :
    Except ValidationError Unit × PurchaseOrder :=
  match PurchaseOrderState.toCompletedFrom po.state with
  | .error e => (.error e, po)
  | .ok s => (.ok (), { po with state := s })

/-- `cancel()`: replaces the state by `toCancelledFrom` of the current
state. -/
def PurchaseOrder.cancel (po : PurchaseOrder) :
    Except ValidationError Unit × PurchaseOrder :=
  match PurchaseOrderState.toCancelledFrom po.state with
  | .error e => (.error e, po)
  | .ok s => (.ok (), { po with state := s })

/-- `calculateTotalPrice()`: rejects an empty item list, then left-folds
`sum.add(item.calculateSubtotal())` over the items starting from a
zero-amount `Money` in the order's currency (the `reduce` of the source). -/
def PurchaseOrder.calculateTotalPrice (po : PurchaseOrder) :
    Except ValidationError Money :=
  if po.items.length = 0 then
    .error ⟨"Cannot calculate total price of a purchase order with no items"⟩
  else do
    let init ← Money.create (.num 0) po.currency
    po.items.foldlM (fun sum item => do
      let sub ← item.calculateSubtotal
      sum.add sub) init

/-- A draft purchase order as produced by the factory with a fresh id. -/
def examplePO : PurchaseOrder :=
  { id := "po-1", supplierId := ⟨"sup-1"⟩, currency := .val .USD,
    orderDate := ⟨0⟩, items := [], state := .Draft }

/-- C1: construction fails with ValidationError when `supplierId` is
absent, and is claimed to fail when `currency` is not a `Currency`
instance; the code instead accepts any `currency` value, because
`!currency instanceof Currency` parses as `(!currency) instanceof
Currency`, which is false for every argument.  At the failing input
(valid supplier, the string value in currency position) construction
succeeds with a fresh id, the defaulted order date, an empty item list and
Draft state, storing the non-Currency value. -/
theorem claim_C1_currency_check_never_fires :
    (PurchaseOrder.create "po-1" ⟨0⟩ none (.notCurrency "USD") none =
      .error ⟨"supplierId is required"⟩) ∧
    (PurchaseOrder.create "po-1" ⟨0⟩ (some ⟨"sup-1"⟩) (.notCurrency "USD") none =
      .ok { id := "po-1", supplierId := ⟨"sup-1"⟩,
            currency := .notCurrency "USD", orderDate := ⟨0⟩,
            items := [], state := .Draft }) :=
  ⟨rfl, rfl⟩

/-- C2 counterexample: `toCancelledFrom` applied to a `Cancelled` current
state does not fail; it succeeds and returns `Cancelled` again, so
`Cancelled` admits a (self-loop) outgoing transition, contrary to the
claim that every transition operation fails on it. -/
theorem claim_C2_counterexample :
    PurchaseOrderState.toCancelledFrom .Cancelled = .ok .Cancelled := rfl

/-- C2 (amended): `Completed` and `Cancelled` reject `toSubmittedFrom`,
`toApprovedFrom`, `toShippedFrom` and `toCompletedFrom`; `toCancelledFrom`
fails from `Completed` but succeeds from `Cancelled`, returning `Cancelled`
itself, so no transition leaves `Cancelled` for a different state. -/
theorem claim_C2_terminal_states :
    (∀ s : PurchaseOrderState, s = .Completed ∨ s = .Cancelled →
      (∃ e, s.toSubmittedFrom = .error e) ∧
      (∃ e, s.toApprovedFrom = .error e) ∧
      (∃ e, s.toShippedFrom = .error e) ∧
      (∃ e, s.toCompletedFrom = .error e)) ∧
    (∃ e, PurchaseOrderState.toCancelledFrom .Completed = .error e) ∧
    PurchaseOrderState.toCancelledFrom .Cancelled = .ok .Cancelled := by
  refine ⟨?_, ⟨_, rfl⟩, rfl⟩
  rintro s (rfl | rfl) <;>
    exact ⟨⟨_, rfl⟩, ⟨_, rfl⟩, ⟨_, rfl⟩, ⟨_, rfl⟩⟩

/-- Witness for C2 (amended), instantiated at the `Cancelled` state. -/
theorem claim_C2_witness :
    (∃ e, PurchaseOrderState.toSubmittedFrom .Cancelled = .error e) ∧
    (∃ e, PurchaseOrderState.toApprovedFrom .Cancelled = .error e) ∧
    (∃ e, PurchaseOrderState.toShippedFrom .Cancelled = .error e) ∧
    (∃ e, PurchaseOrderState.toCompletedFrom .Cancelled = .error e) :=
  claim_C2_terminal_states.1 .Cancelled (Or.inr rfl)

/-- C4: the transition table holds exactly: each of the four forward
transitions succeeds precisely from its required source state and produces
exactly its target state, `toCancelledFrom` succeeds precisely from the
states other than `Completed` and produces `Cancelled`, and in every other
case the operation fails with a ValidationError. -/
theorem claim_C4_transition_table (s : PurchaseOrderState) :
    (∀ t, s.toSubmittedFrom = .ok t ↔ s = .Draft ∧ t = .Submitted) ∧
    (∀ t, s.toApprovedFrom = .ok t ↔ s = .Submitted ∧ t = .Approved) ∧
    (∀ t, s.toShippedFrom = .ok t ↔ s = .Approved ∧ t = .Shipped) ∧
    (∀ t, s.toCompletedFrom = .ok t ↔ s = .Shipped ∧ t = .Completed) ∧
    (∀ t, s.toCancelledFrom = .ok t ↔ s ≠ .Completed ∧ t = .Cancelled) ∧
    ((∃ e, s.toSubmittedFrom = .error e) ↔ s ≠ .Draft) ∧
    ((∃ e, s.toApprovedFrom = .error e) ↔ s ≠ .Submitted) ∧
    ((∃ e, s.toShippedFrom = .error e) ↔ s ≠ .Approved) ∧
    ((∃ e, s.toCompletedFrom = .error e) ↔ s ≠ .Shipped) ∧
    ((∃ e, s.toCancelledFrom = .error e) ↔ s = .Completed) := by
  cases s <;>
    simp [PurchaseOrderState.toSubmittedFrom, PurchaseOrderState.toApprovedFrom,
      PurchaseOrderState.toShippedFrom, PurchaseOrderState.toCompletedFrom,
      PurchaseOrderState.toCancelledFrom, eq_comm]

/-- Every `addItem` call either returns ok or leaves the aggregate as it
was: all throw sites precede the push. -/
theorem PurchaseOrder.addItem_ok_or_unchanged (po : PurchaseOrder)
    (productId : ProductIdArg) (quantity unitPrice : JSNum) :
    (po.addItem productId quantity unitPrice).1 = .ok () ∨
    (po.addItem productId quantity unitPrice).2 = po := by
  unfold PurchaseOrder.addItem
  split
  · right; rfl
  split
  · right; rfl
  split
  · right; rfl
  split
  · right; rfl
  split
  · right; rfl
  · left; rfl

/-- Each state-transition mutator either returns ok or leaves the
aggregate as it was. -/
theorem PurchaseOrder.transitions_ok_or_unchanged (po : PurchaseOrder) :
    (po.approve.1 = .ok () ∨ po.approve.2 = po) ∧
    (po.ship.1 = .ok () ∨ po.ship.2 = po) ∧
    (po.complete.1 = .ok () ∨ po.complete.2 = po) ∧
    (po.cancel.1 = .ok () ∨ po.cancel.2 = po) := by
  refine ⟨?_, ?_, ?_, ?_⟩ <;>
    [unfold PurchaseOrder.approve; unfold PurchaseOrder.ship;
     unfold PurchaseOrder.complete; unfold PurchaseOrder.cancel] <;>
    (split
     · right; rfl
     · left; rfl)

/-- C5: every mutator is atomic: whenever it fails with a ValidationError,
the aggregate observed after the call is exactly the aggregate before it
(id, supplierId, currency, orderDate, items and state all unchanged),
because in the source every throw happens before any mutation. -/
theorem claim_C5_mutators_atomic (po : PurchaseOrder)
    (productId : ProductIdArg) (quantity unitPrice : JSNum) :
    (∀ e, (po.addItem productId quantity unitPrice).1 = .error e →
      (po.addItem productId quantity unitPrice).2 = po) ∧
    (∀ e, po.approve.1 = .error e → po.approve.2 = po) ∧
    (∀ e, po.ship.1 = .error e → po.ship.2 = po) ∧
    (∀ e, po.complete.1 = .error e → po.complete.2 = po) ∧
    (∀ e, po.cancel.1 = .error e → po.cancel.2 = po) := by
  obtain ⟨h1, h2, h3, h4⟩ := PurchaseOrder.transitions_ok_or_unchanged po
  refine ⟨?_, ?_, ?_, ?_, ?_⟩ <;> intro e he
  · rcases PurchaseOrder.addItem_ok_or_unchanged po productId quantity unitPrice with h | h
    · rw [h] at he; exact absurd he (by simp)
    · exact h
  · rcases h1 with h | h
    · rw [h] at he; exact absurd he (by simp)
    · exact h
  · rcases h2 with h | h
    · rw [h] at he; exact absurd he (by simp)
    · exact h
  · rcases h3 with h | h
    · rw [h] at he; exact absurd he (by simp)
    · exact h
  · rcases h4 with h | h
    · rw [h] at he; exact absurd he (by simp)
    · exact h

/-- Witness for C5: a cancelled order rejects `addItem` and `approve`,
leaving the aggregate unchanged. -/
theorem claim_C5_witness :
    (({ examplePO with state := .Cancelled } : PurchaseOrder).addItem
        (.valid ⟨"prod-1"⟩) (.num 1) (.num 1)).2 =
      { examplePO with state := .Cancelled } ∧
    ({ examplePO with state := .Cancelled } : PurchaseOrder).approve.2 =
      { examplePO with state := .Cancelled } := by
  obtain ⟨ha, hb, _, _, _⟩ := claim_C5_mutators_atomic
    { examplePO with state := .Cancelled } (.valid ⟨"prod-1"⟩) (.num 1) (.num 1)
  exact ⟨ha ⟨"Cannot add items to a non-draft purchase order"⟩ rfl,
    hb ⟨"Cannot transition from Cancelled to Approved"⟩ rfl⟩

/-- The purchase orders reachable through the public contract: produced by
the factory (constructor), then evolved by any sequence of mutator calls,
observing the aggregate after each call whether it succeeded or threw.
Queries and accessors do not change the aggregate. -/
inductive PurchaseOrder.Reachable : PurchaseOrder → Prop where
  | created (freshId : String) (now : DateTime) (supplierId : Option SupplierId)
      (currency : CurrencyArg) (orderDate : Option DateTime) (po : PurchaseOrder)
      (h : PurchaseOrder.create freshId now supplierId currency orderDate = .ok po) :
      PurchaseOrder.Reachable po
  | addItemStep (po : PurchaseOrder) (productId : ProductIdArg)
      (quantity unitPrice : JSNum) (h : PurchaseOrder.Reachable po) :
      PurchaseOrder.Reachable (po.addItem productId quantity unitPrice).2
  | approveStep (po : PurchaseOrder) (h : PurchaseOrder.Reachable po) :
      PurchaseOrder.Reachable po.approve.2
  | shipStep (po : PurchaseOrder) (h : PurchaseOrder.Reachable po) :
      PurchaseOrder.Reachable po.ship.2
  | completeStep (po : PurchaseOrder) (h : PurchaseOrder.Reachable po) :
      PurchaseOrder.Reachable po.complete.2
  | cancelStep (po : PurchaseOrder) (h : PurchaseOrder.Reachable po) :
      PurchaseOrder.Reachable po.cancel.2

/-- The factory only ever creates orders in Draft state. -/
theorem PurchaseOrder.create_state {freshId : String} {now : DateTime}
    {supplierId : Option SupplierId} {currency : CurrencyArg}
    {orderDate : Option DateTime} {po : PurchaseOrder}
    (h : PurchaseOrder.create freshId now supplierId currency orderDate = .ok po) :
    po.state = .Draft := by
  unfold PurchaseOrder.create boolInstanceOfCurrency at h
  cases supplierId with
  | none => simp at h
  | some sid =>
    simp at h
    rw [← h]

/-- `addItem` never changes the state. -/
theorem PurchaseOrder.addItem_state (po : PurchaseOrder)
    (productId : ProductIdArg) (quantity unitPrice : JSNum) :
    (po.addItem productId quantity unitPrice).2.state = po.state := by
  unfold PurchaseOrder.addItem
  split
  · rfl
  split
  · rfl
  split
  · rfl
  split
  · rfl
  split
  · rfl
  · rfl

/-- `approve()` leaves the aggregate unchanged unless the state is
Submitted. -/
theorem PurchaseOrder.approve_unchanged {po : PurchaseOrder}
    (h : po.state ≠ .Submitted) : po.approve.2 = po := by
  unfold PurchaseOrder.approve PurchaseOrderState.toApprovedFrom
  rw [if_pos h]

/-- `ship()` leaves the aggregate unchanged unless the state is Approved. -/
theorem PurchaseOrder.ship_unchanged {po : PurchaseOrder}
    (h : po.state ≠ .Approved) : po.ship.2 = po := by
  unfold PurchaseOrder.ship PurchaseOrderState.toShippedFrom
  rw [if_pos h]

/-- `complete()` leaves the aggregate unchanged unless the state is
Shipped. -/
theorem PurchaseOrder.complete_unchanged {po : PurchaseOrder}
    (h : po.state ≠ .Shipped) : po.complete.2 = po := by
  unfold PurchaseOrder.complete PurchaseOrderState.toCompletedFrom
  rw [if_pos h]

/-- `cancel()` moves any non-Completed order to Cancelled. -/
theorem PurchaseOrder.cancel_state {po : PurchaseOrder}
    (h : po.state ≠ .Completed) : po.cancel.2.state = .Cancelled := by
  unfold PurchaseOrder.cancel PurchaseOrderState.toCancelledFrom
  rw [if_neg h]

/-- State invariant of the public contract: every reachable order is in
Draft or Cancelled state. -/
theorem PurchaseOrder.reachable_state {po : PurchaseOrder}
    (h : PurchaseOrder.Reachable po) :
    po.state = .Draft ∨ po.state = .Cancelled := by
  induction h with
  | created _ _ _ _ _ _ hc => exact Or.inl (PurchaseOrder.create_state hc)
  | addItemStep po productId quantity unitPrice _ ih =>
    rw [PurchaseOrder.addItem_state]; exact ih
  | approveStep po _ ih =>
    rw [PurchaseOrder.approve_unchanged (by rcases ih with h | h <;> simp [h])]
    exact ih
  | shipStep po _ ih =>
    rw [PurchaseOrder.ship_unchanged (by rcases ih with h | h <;> simp [h])]
    exact ih
  | completeStep po _ ih =>
    rw [PurchaseOrder.complete_unchanged (by rcases ih with h | h <;> simp [h])]
    exact ih
  | cancelStep po _ ih =>
    exact Or.inr (PurchaseOrder.cancel_state
      (by rcases ih with h | h <;> simp [h]))

/-- C3: every purchase order reachable from the factory through the public
operations is in Draft or Cancelled state, and consequently `approve()`,
`ship()` and `complete()` always fail with a ValidationError on reachable
orders, since no public operation ever produces the Submitted (or Approved,
or Shipped) state. -/
theorem claim_C3_reachable_draft_or_cancelled (po : PurchaseOrder)
    (h : PurchaseOrder.Reachable po) :
    (po.state = .Draft ∨ po.state = .Cancelled) ∧
    (∃ e, po.approve.1 = .error e) ∧
    (∃ e, po.ship.1 = .error e) ∧
    (∃ e, po.complete.1 = .error e) := by
  have hs := PurchaseOrder.reachable_state h
  refine ⟨hs, ?_, ?_, ?_⟩
  · unfold PurchaseOrder.approve PurchaseOrderState.toApprovedFrom
    rw [if_pos (by rcases hs with h1 | h1 <;> simp [h1])]
    exact ⟨_, rfl⟩
  · unfold PurchaseOrder.ship PurchaseOrderState.toShippedFrom
    rw [if_pos (by rcases hs with h1 | h1 <;> simp [h1])]
    exact ⟨_, rfl⟩
  · unfold PurchaseOrder.complete PurchaseOrderState.toCompletedFrom
    rw [if_pos (by rcases hs with h1 | h1 <;> simp [h1])]
    exact ⟨_, rfl⟩

/-- Witness for C3: a freshly created order is reachable, is in Draft
state, and rejects approve, ship and complete. -/
theorem claim_C3_witness :
    (examplePO.state = .Draft ∨ examplePO.state = .Cancelled) ∧
    (∃ e, examplePO.approve.1 = .error e) ∧
    (∃ e, examplePO.ship.1 = .error e) ∧
    (∃ e, examplePO.complete.1 = .error e) :=
  claim_C3_reachable_draft_or_cancelled examplePO
    (.created "po-1" ⟨0⟩ (some ⟨"sup-1"⟩) (.val .USD) none examplePO rfl)

/-- A whole number of cents in a given currency, as `Money`. -/
def centsOf (n : Nat) (c : Currency) : Money :=
  { amount := (n : ℚ) / 100, currency := c,
    nonneg := by positivity,
    cents := ⟨(n : ℤ), by push_cast; ring⟩ }

/-- Shape of a successful `Money` construction. -/
theorem Money.create_ok {q : ℚ} (h : 0 ≤ q) (c : Currency) :
    ∃ m : Money, Money.create (.num q) (.val c) = .ok m ∧
      m.amount = roundTo2 q ∧ m.currency = c := by
  simp only [Money.create]
  rw [dif_pos h]
  exact ⟨_, rfl, rfl, rfl⟩

/-- `Money` construction succeeds exactly on a finite non-negative amount
and a genuine `Currency`. -/
theorem Money.create_ok_iff (a : JSNum) (c : CurrencyArg) :
    (∃ m, Money.create a c = .ok m) ↔
      ((∃ q : ℚ, a = .num q ∧ 0 ≤ q) ∧ ∃ cur, c = .val cur) := by
  cases a with
  | num q =>
    by_cases h : 0 ≤ q
    · cases c <;> simp [Money.create, dif_pos h, h]
    · cases c <;> simp [Money.create, dif_neg h, h]
  | nan => simp [Money.create]
  | posInf => simp [Money.create]
  | negInf => simp [Money.create]

/-- Adding two `Money` values of the same currency succeeds, and the sum of
two whole-cent amounts is not changed by the rounding step. -/
theorem Money.add_ok (a b : Money) (h : a.currency = b.currency) :
    ∃ m : Money, a.add b = .ok m ∧
      m.amount = a.amount + b.amount ∧ m.currency = a.currency := by
  obtain ⟨m, hm, hma, hmc⟩ :=
    Money.create_ok (add_nonneg a.nonneg b.nonneg) a.currency
  refine ⟨m, ?_, ?_, hmc⟩
  · unfold Money.add Currency.equals
    rw [h] at hm ⊢
    simp only [beq_self_eq_true, Bool.not_true, Bool.false_eq_true, if_false]
    exact hm
  · rw [hma]
    apply roundTo2_eq_self
    obtain ⟨na, ha⟩ := a.cents
    obtain ⟨nb, hb⟩ := b.cents
    exact ⟨na + nb, by rw [ha, hb]; push_cast; ring⟩

/-- Multiplying a `Money` value by any finite non-negative multiplier
succeeds and stores the rounded product. -/
theorem Money.multiply_ok (a : Money) {q : ℚ} (h0 : 0 ≤ q) :
    ∃ m : Money, a.multiply (.num q) = .ok m ∧
      m.amount = roundTo2 (a.amount * q) ∧ m.currency = a.currency := by
  simp only [Money.multiply]
  rw [if_neg (not_lt.mpr h0)]
  exact Money.create_ok (mul_nonneg a.nonneg h0) a.currency

/-- Multiplying a `Money` value by a non-negative integer-valued rational
succeeds, and the product stays a whole number of cents, so the rounding
step does not change it. -/
theorem Money.multiply_int_ok (a : Money) {q : ℚ}
    (hden : q.den = 1) (h0 : 0 ≤ q) :
    ∃ m : Money, a.multiply (.num q) = .ok m ∧
      m.amount = a.amount * q ∧ m.currency = a.currency := by
  simp only [Money.multiply]
  rw [if_neg (not_lt.mpr h0)]
  obtain ⟨m, hm, hma, hmc⟩ :=
    Money.create_ok (mul_nonneg a.nonneg h0) a.currency
  refine ⟨m, hm, ?_, hmc⟩
  rw [hma]
  apply roundTo2_eq_self
  obtain ⟨na, ha⟩ := a.cents
  have hq : (q.num : ℚ) = q := by
    have h1 := Rat.num_div_den q
    rw [hden] at h1
    push_cast at h1
    simpa using h1
  refine ⟨na * q.num, ?_⟩
  conv_lhs => rw [ha, ← hq]
  push_cast
  ring

/-- The total-price fold: starting from any accumulator in currency `c`
over items whose unit prices are all in currency `c`, the fold of
`sum.add(item.calculateSubtotal())` succeeds and computes the exact sum of
the subtotals, with no rounding drift. -/
theorem totalPriceFold (c : Currency) (items : List PurchaseOrderItem)
    (hits : ∀ it ∈ items, it.unitPrice.currency = c) (acc : Money)
    (hacc : acc.currency = c) :
    ∃ m : Money,
      items.foldlM (fun sum item => do
        let sub ← item.calculateSubtotal
        sum.add sub) acc = (.ok m : Except ValidationError Money) ∧
      m.currency = c ∧
      m.amount = acc.amount +
        (items.map (fun it => it.unitPrice.amount * it.quantity)).sum := by
  induction items generalizing acc with
  | nil => exact ⟨acc, rfl, hacc, by simp⟩
  | cons it rest ih =>
    have hcur : it.unitPrice.currency = c := hits it (by simp)
    obtain ⟨sub, hsub, hsubam, hsubcur⟩ :=
      Money.multiply_int_ok it.unitPrice it.qInt (le_of_lt it.qPos)
    obtain ⟨s2, hadd, haddam, haddcur⟩ :=
      Money.add_ok acc sub (by rw [hacc, hsubcur, hcur])
    obtain ⟨m, hm, hmc, hma⟩ :=
      ih (fun x hx => hits x (by simp [hx])) s2 (by rw [haddcur, hacc])
    refine ⟨m, ?_, hmc, ?_⟩
    · rw [List.foldlM_cons]
      show (PurchaseOrderItem.calculateSubtotal it >>= fun sub =>
        acc.add sub) >>= _ = _
      rw [PurchaseOrderItem.calculateSubtotal, hsub]
      show (acc.add sub) >>= _ = _
      rw [hadd]
      exact hm
    · rw [hma, haddam, hsubam]
      simp
      ring

/-- C6: `calculateTotalPrice` fails with a ValidationError on an empty
item list; on a non-empty list (of an order whose currency is a genuine
`Currency` shared by all item unit prices, as the factory and `addItem`
guarantee) it returns the fold of all item subtotals via `Money.add`
starting from a zero-amount `Money` in the order's currency, which equals
the exact sum of `unitPrice × quantity` over the items. -/
theorem claim_C6_calculate_total_price (po : PurchaseOrder) (c : Currency)
    (hc : po.currency = .val c)
    (hits : ∀ it ∈ po.items, it.unitPrice.currency = c) :
    (po.items = [] →
      po.calculateTotalPrice =
        .error ⟨"Cannot calculate total price of a purchase order with no items"⟩) ∧
    (po.items ≠ [] →
      (po.calculateTotalPrice).map Money.amount =
        .ok ((po.items.map (fun it => it.unitPrice.amount * it.quantity)).sum) ∧
      (po.calculateTotalPrice).map Money.currency = .ok c) := by
  constructor
  · intro h
    unfold PurchaseOrder.calculateTotalPrice
    rw [if_pos (by rw [h]; rfl)]
  · intro h
    obtain ⟨m0, hm0, hm0a, hm0c⟩ := Money.create_ok (le_refl (0 : ℚ)) c
    obtain ⟨m, hm, hmc, hma⟩ := totalPriceFold c po.items hits m0 hm0c
    have hz : m0.amount = 0 := by
      rw [hm0a]
      exact roundTo2_eq_self ⟨0, by norm_num⟩
    have hcalc : po.calculateTotalPrice = .ok m := by
      unfold PurchaseOrder.calculateTotalPrice
      rw [if_neg (by simpa using h), hc, hm0]
      exact hm
    rw [hcalc]
    constructor
    · show Except.ok m.amount = _
      rw [hma, hz, zero_add]
    · show Except.ok m.currency = _
      rw [hmc]

/-- A line item of 2 units at 10.00 each. -/
def exItem1 : PurchaseOrderItem :=
  { orderId := "po-1", productId := ⟨"prod-1"⟩, quantity := 2,
    unitPrice := centsOf 1000 .USD,
    qInt := rfl, qPos := by norm_num, qLe := by norm_num }

/-- A line item of 1 unit at 5.00. -/
def exItem2 : PurchaseOrderItem :=
  { orderId := "po-1", productId := ⟨"prod-2"⟩, quantity := 1,
    unitPrice := centsOf 500 .USD,
    qInt := rfl, qPos := by norm_num, qLe := by norm_num }

/-- A draft USD order holding `exItem1` and `exItem2`. -/
def exPO6 : PurchaseOrder := { examplePO with items := [exItem1, exItem2] }

/-- Witness for C6: the USD order with items (qty 2 at 10.00) and
(qty 1 at 5.00) totals 25.00 USD. -/
theorem claim_C6_witness :
    (exPO6.calculateTotalPrice).map Money.amount = .ok 25 ∧
    (exPO6.calculateTotalPrice).map Money.currency = .ok .USD := by
  have hits : ∀ it ∈ exPO6.items, it.unitPrice.currency = .USD := by
    intro it hit
    rcases List.mem_cons.mp hit with rfl | hit2
    · rfl
    rcases List.mem_cons.mp hit2 with rfl | hit3
    · rfl
    · exact absurd hit3 (List.not_mem_nil it)
  obtain ⟨h1, h2⟩ :=
    (claim_C6_calculate_total_price exPO6 .USD rfl hits).2 (by simp [exPO6])
  refine ⟨?_, h2⟩
  rw [h1]
  norm_num [exPO6, examplePO, exItem1, exItem2, centsOf]

/-- C9: `Money` construction succeeds exactly on a finite non-negative
amount paired with a genuine `Currency`; on success the stored amount is
the given amount rounded to two decimal places, and every `Money` amount
is a whole number of hundredths. -/
theorem claim_C9_money_construction :
    (∀ (a : JSNum) (c : CurrencyArg),
      (∃ m, Money.create a c = .ok m) ↔
        ((∃ q : ℚ, a = .num q ∧ 0 ≤ q) ∧ ∃ cur, c = .val cur)) ∧
    (∀ (q : ℚ) (cur : Currency),
      (Money.create (.num q) (.val cur)).map Money.amount =
        if 0 ≤ q then .ok (roundTo2 q)
        else .error ⟨"Amount must be a non-negative finite number"⟩) ∧
    (∀ m : Money, ∃ n : ℤ, m.amount = (n : ℚ) / 100) := by
  refine ⟨Money.create_ok_iff, ?_, fun m => m.cents⟩
  intro q cur
  by_cases h : 0 ≤ q
  · obtain ⟨m, hm, hma, _⟩ := Money.create_ok h cur
    rw [hm, if_pos h]
    show Except.ok m.amount = _
    rw [hma]
  · rw [if_neg h]
    simp only [Money.create]
    rw [dif_neg h]
    rfl

/-- C10 counterexample: multiplication does not commute with itself under
the two-decimal rounding: 0.01 USD times 0.4 then times 5 gives 0.00,
while 0.01 USD times 5 then times 0.4 gives 0.02 (also the result of a
single multiplication by 2 = 0.4 × 5), so `Money.multiply` is not
commutative/associative in its interaction with the rounding. -/
theorem claim_C10_counterexample :
    (((centsOf 1 .USD).multiply (.num (2/5))).bind
        (fun x => x.multiply (.num 5))).map Money.amount = .ok 0 ∧
    (((centsOf 1 .USD).multiply (.num 5)).bind
        (fun x => x.multiply (.num (2/5)))).map Money.amount = .ok (1/50) ∧
    (0 : ℚ) ≠ 1/50 := by
  obtain ⟨x, hx, hxa, hxc⟩ :=
    Money.multiply_ok (centsOf 1 .USD) (q := 2/5) (by norm_num)
  have hxa0 : x.amount = 0 := by
    rw [hxa]
    norm_num [centsOf, roundTo2]
  obtain ⟨x2, hx2, hx2a, _⟩ := Money.multiply_ok x (q := 5) (by norm_num)
  have hx2a0 : x2.amount = 0 := by
    rw [hx2a, hxa0]
    norm_num [roundTo2]
  obtain ⟨y, hy, hya, hyc⟩ :=
    Money.multiply_ok (centsOf 1 .USD) (q := 5) (by norm_num)
  have hya5 : y.amount = 1/20 := by
    rw [hya]
    norm_num [centsOf, roundTo2]
  obtain ⟨y2, hy2, hy2a, _⟩ := Money.multiply_ok y (q := 2/5) (by norm_num)
  have hy2af : y2.amount = 1/50 := by
    rw [hy2a, hya5]
    norm_num [roundTo2]
  refine ⟨?_, ?_, by norm_num⟩
  · rw [hx]
    show (x.multiply (.num 5)).map Money.amount = .ok 0
    rw [hx2]
    show Except.ok x2.amount = _
    rw [hx2a0]
  · rw [hy]
    show (y.multiply (.num (2/5))).map Money.amount = .ok (1/50)
    rw [hy2]
    show Except.ok y2.amount = _
    rw [hy2af]

/-- C10 (amended): for same-currency operands, `Money.add` is commutative
and associative under the two-decimal rounding rule (whole-cent amounts
make the rounding step exact); composed `Money.multiply` calls commute for
non-negative integer multipliers (but not for arbitrary multipliers, see
the counterexample); and cross-currency `add` always fails with a
ValidationError. -/
theorem claim_C10_money_algebra :
    (∀ a b : Money, a.currency = b.currency → a.add b = b.add a) ∧
    (∀ a b c : Money, a.currency = b.currency → b.currency = c.currency →
      (a.add b).bind (fun x => x.add c) =
        (b.add c).bind (fun y => a.add y)) ∧
    (∀ (a : Money) (m n : ℕ),
      (a.multiply (.num (m : ℚ))).bind (fun x => x.multiply (.num (n : ℚ))) =
        (a.multiply (.num (n : ℚ))).bind
          (fun x => x.multiply (.num (m : ℚ)))) ∧
    (∀ a b : Money, a.currency ≠ b.currency → ∃ e, a.add b = .error e) := by
  refine ⟨?_, ?_, ?_, ?_⟩
  · intro a b h
    obtain ⟨m1, hm1, hm1a, hm1c⟩ := Money.add_ok a b h
    obtain ⟨m2, hm2, hm2a, hm2c⟩ := Money.add_ok b a h.symm
    rw [hm1, hm2]
    exact congrArg Except.ok (Money.ext2
      (by rw [hm1a, hm2a, add_comm]) (by rw [hm1c, hm2c, h]))
  · intro a b c hab hbc
    obtain ⟨x, hx, hxa, hxc⟩ := Money.add_ok a b hab
    obtain ⟨y, hy, hya, hyc⟩ := Money.add_ok b c hbc
    obtain ⟨l, hl, hla, hlc⟩ := Money.add_ok x c (by rw [hxc, hab, hbc])
    obtain ⟨r, hr, hra, hrc⟩ := Money.add_ok a y (by rw [hyc, hab])
    rw [hx, hy]
    show x.add c = a.add y
    rw [hl, hr]
    exact congrArg Except.ok (Money.ext2
      (by rw [hla, hra, hxa, hya]; ring) (by rw [hlc, hrc, hxc]))
  · intro a m n
    have hdm : ((m : ℚ)).den = 1 := Rat.den_natCast m
    have hdn : ((n : ℚ)).den = 1 := Rat.den_natCast n
    have h0m : (0 : ℚ) ≤ m := Nat.cast_nonneg m
    have h0n : (0 : ℚ) ≤ n := Nat.cast_nonneg n
    obtain ⟨x, hx, hxa, hxc⟩ := Money.multiply_int_ok a hdm h0m
    obtain ⟨y, hy, hya, hyc⟩ := Money.multiply_int_ok a hdn h0n
    obtain ⟨x2, hx2, hx2a, hx2c⟩ := Money.multiply_int_ok x hdn h0n
    obtain ⟨y2, hy2, hy2a, hy2c⟩ := Money.multiply_int_ok y hdm h0m
    rw [hx, hy]
    show x.multiply (.num (n : ℚ)) = y.multiply (.num (m : ℚ))
    rw [hx2, hy2]
    exact congrArg Except.ok (Money.ext2
      (by rw [hx2a, hy2a, hxa, hya]; ring) (by rw [hx2c, hy2c, hxc, hyc]))
  · intro a b h
    refine ⟨⟨"Can only add Money with the same currency"⟩, ?_⟩
    unfold Money.add Currency.equals
    rw [beq_eq_false_iff_ne.mpr h]
    rfl

/-- Witness for C10 (amended): instantiated at 10.00, 5.00 and 2.50 USD,
natural multipliers 2 and 3, and the cross-currency pair 1.00 USD with
1.00 EUR. -/
theorem claim_C10_witness :
    (centsOf 1000 .USD).add (centsOf 500 .USD) =
      (centsOf 500 .USD).add (centsOf 1000 .USD) ∧
    ((centsOf 1000 .USD).add (centsOf 500 .USD)).bind
        (fun x => x.add (centsOf 250 .USD)) =
      ((centsOf 500 .USD).add (centsOf 250 .USD)).bind
        (fun y => (centsOf 1000 .USD).add y) ∧
    ((centsOf 1000 .USD).multiply (.num ((2 : ℕ) : ℚ))).bind
        (fun x => x.multiply (.num ((3 : ℕ) : ℚ))) =
      ((centsOf 1000 .USD).multiply (.num ((3 : ℕ) : ℚ))).bind
        (fun x => x.multiply (.num ((2 : ℕ) : ℚ))) ∧
    (∃ e, (centsOf 100 .USD).add (centsOf 100 .EUR) = .error e) :=
  ⟨claim_C10_money_algebra.1 _ _ rfl,
   claim_C10_money_algebra.2.1 _ _ _ rfl rfl,
   claim_C10_money_algebra.2.2.1 (centsOf 1000 .USD) 2 3,
   claim_C10_money_algebra.2.2.2 _ _ (by simp [centsOf])⟩

/-- An `Except` value that is not a success is an error. -/
theorem except_error_of_not_ok {α : Type} {x : Except ValidationError α}
    (h : ¬ ∃ a, x = .ok a) : ∃ e, x = .error e := by
  cases x with
  | error e => exact ⟨e, rfl⟩
  | ok a => exact absurd ⟨a, rfl⟩ h

/-- `PurchaseOrderItem` construction succeeds exactly on a non-empty
string order id, a genuine `ProductId`, an integer quantity in
`[1, 1000]`, and a genuine `Money` unit price. -/
theorem PurchaseOrderItem.createItem_ok_iff (oid : JSStr) (pid : ProductIdArg)
    (q : JSNum) (up : MoneyArg) :
    (∃ it, PurchaseOrderItem.create oid pid q up = .ok it) ↔
      ((∃ s, oid = .str s ∧ s.isEmpty = false) ∧
       (∃ p, pid = .valid p) ∧
       (∃ qq : ℚ, q = .num qq ∧ qq.den = 1 ∧ 0 < qq ∧ qq ≤ 1000) ∧
       (∃ m, up = .money m)) := by
  cases oid with
  | notStr t => simp [PurchaseOrderItem.create]
  | str s =>
    by_cases hs : s.isEmpty
    · simp [PurchaseOrderItem.create, hs]
    · cases pid with
      | invalid t => simp [PurchaseOrderItem.create, hs]
      | valid p =>
        cases q with
        | num qq =>
          by_cases hq : qq.den = 1 ∧ 0 < qq ∧ qq ≤ 1000
          · cases up with
            | notMoney t =>
              simp only [PurchaseOrderItem.create, hs, dif_pos hq]
              simp [hq.1, hq.2.1, hq.2.2, hs]
            | money m =>
              simp only [PurchaseOrderItem.create, hs, dif_pos hq]
              simp [hq.1, hq.2.1, hq.2.2, hs]
          · simp only [PurchaseOrderItem.create, hs, dif_neg hq]
            simp only [Bool.not_eq_true] at hs
            simp [hs]
            intro h1 h2 h3
            exact (hq ⟨h1, h2, h3⟩).elim
        | nan => simp [PurchaseOrderItem.create, hs]
        | posInf => simp [PurchaseOrderItem.create, hs]
        | negInf => simp [PurchaseOrderItem.create, hs]

/-- The quantity `3/2` is not an integer. -/
theorem threeHalves_den_ne_one : ((3 : ℚ) / 2).den ≠ 1 := by
  have h : (((3 : ℤ) : ℚ) / ((2 : ℤ) : ℚ)).den = 1 ↔ (2 : ℤ) ∣ 3 :=
    Rat.den_div_intCast_eq_one_iff 3 2 (by norm_num)
  have h2 : (((3 : ℤ) : ℚ) / ((2 : ℤ) : ℚ)) = (3 : ℚ) / 2 := by norm_num
  rw [h2] at h
  exact fun hd => absurd (h.mp hd) (by omega)

/-- C8: `PurchaseOrderItem` construction accepts an integer quantity of
1000 (with otherwise valid arguments) and rejects 1001, 0 and the
non-integer 3/2; in general it succeeds exactly when orderId is a
non-empty string, productId is a `ProductId`, quantity is an integer in
`[1, 1000]` and unitPrice is a `Money`. -/
theorem claim_C8_item_construction :
    (∀ (oid : JSStr) (pid : ProductIdArg) (q : JSNum) (up : MoneyArg),
      (∃ it, PurchaseOrderItem.create oid pid q up = .ok it) ↔
        ((∃ s, oid = .str s ∧ s.isEmpty = false) ∧
         (∃ p, pid = .valid p) ∧
         (∃ qq : ℚ, q = .num qq ∧ qq.den = 1 ∧ 0 < qq ∧ qq ≤ 1000) ∧
         (∃ m, up = .money m))) ∧
    (∃ it, PurchaseOrderItem.create (.str "po-1") (.valid ⟨"prod-1"⟩)
      (.num 1000) (.money (centsOf 1000 .USD)) = .ok it) ∧
    (∃ e, PurchaseOrderItem.create (.str "po-1") (.valid ⟨"prod-1"⟩)
      (.num 1001) (.money (centsOf 1000 .USD)) = .error e) ∧
    (∃ e, PurchaseOrderItem.create (.str "po-1") (.valid ⟨"prod-1"⟩)
      (.num 0) (.money (centsOf 1000 .USD)) = .error e) ∧
    (∃ e, PurchaseOrderItem.create (.str "po-1") (.valid ⟨"prod-1"⟩)
      (.num (3/2)) (.money (centsOf 1000 .USD)) = .error e) := by
  refine ⟨PurchaseOrderItem.createItem_ok_iff, ?_, ?_, ?_, ?_⟩
  · exact (PurchaseOrderItem.createItem_ok_iff _ _ _ _).mpr
      ⟨⟨"po-1", rfl, rfl⟩, ⟨⟨"prod-1"⟩, rfl⟩,
       ⟨1000, rfl, rfl, by norm_num, by norm_num⟩,
       ⟨centsOf 1000 .USD, rfl⟩⟩
  · refine except_error_of_not_ok ?_
    rw [PurchaseOrderItem.createItem_ok_iff]
    rintro ⟨-, -, ⟨qq, hqq, -, -, hle⟩, -⟩
    injection hqq with hqq
    rw [← hqq] at hle
    exact absurd hle (by norm_num)
  · refine except_error_of_not_ok ?_
    rw [PurchaseOrderItem.createItem_ok_iff]
    rintro ⟨-, -, ⟨qq, hqq, -, hpos, -⟩, -⟩
    injection hqq with hqq
    rw [← hqq] at hpos
    exact absurd hpos (by norm_num)
  · refine except_error_of_not_ok ?_
    rw [PurchaseOrderItem.createItem_ok_iff]
    rintro ⟨-, -, ⟨qq, hqq, hden, -, -⟩, -⟩
    injection hqq with hqq
    rw [← hqq] at hden
    exact absurd hden threeHalves_den_ne_one

/-- `isDraft()` tests exactly for the Draft state. -/
theorem PurchaseOrderState.isDraft_eq_true_iff (s : PurchaseOrderState) :
    s.isDraft = true ↔ s = .Draft := by
  cases s <;> simp [PurchaseOrderState.isDraft]

/-- `addItem` succeeds exactly when the order is in Draft state with fewer
than 50 items and a non-empty id, the stored currency is a genuine
`Currency`, the unit price is a finite non-negative number, the product id
is a `ProductId`, and the quantity is an integer in `[1, 1000]`. -/
theorem PurchaseOrder.addItem_ok_iff (po : PurchaseOrder)
    (productId : ProductIdArg) (quantity unitPrice : JSNum) :
    (po.addItem productId quantity unitPrice).1 = .ok () ↔
      (po.state = .Draft ∧ po.items.length < PurchaseOrder.MAX_ITEMS ∧
       (∃ u : ℚ, unitPrice = .num u ∧ 0 ≤ u) ∧
       (∃ c, po.currency = .val c) ∧ po.id.isEmpty = false ∧
       (∃ p, productId = .valid p) ∧
       (∃ q : ℚ, quantity = .num q ∧ q.den = 1 ∧ 0 < q ∧ q ≤ 1000)) := by
  unfold PurchaseOrder.addItem
  by_cases h1 : po.state = .Draft
  case neg =>
    have hD : po.state.isDraft = false := by
      rcases Bool.eq_false_or_eq_true po.state.isDraft with h | h
      · exact absurd ((PurchaseOrderState.isDraft_eq_true_iff po.state).mp h) h1
      · exact h
    rw [if_pos (by simp [hD])]
    simp [h1]
  case pos =>
    have hD : po.state.isDraft = true :=
      (PurchaseOrderState.isDraft_eq_true_iff po.state).mpr h1
    rw [if_neg (by simp [hD])]
    by_cases h2 : po.items.length < PurchaseOrder.MAX_ITEMS
    case neg =>
      rw [if_pos (not_lt.mp h2)]
      simp [h1, h2]
    case pos =>
      rw [if_neg (not_le.mpr h2)]
      cases unitPrice with
      | nan => simp [JSNum.isFinite, JSNum.ltZero, h1, h2]
      | posInf => simp [JSNum.isFinite, JSNum.ltZero, h1, h2]
      | negInf => simp [JSNum.isFinite, JSNum.ltZero, h1, h2]
      | num u =>
        by_cases hu : 0 ≤ u
        case neg =>
          have hcond : (!(JSNum.num u).isFinite || (JSNum.num u).ltZero)
              = true := by
            simp [JSNum.isFinite, JSNum.ltZero]
            exact lt_of_not_le hu
          rw [if_pos hcond]
          simp only [Prod.fst]
          constructor
          · intro h
            exact absurd h (by simp)
          · rintro ⟨-, -, ⟨u2, hu2, hu2n⟩, -⟩
            injection hu2 with hu2
            rw [← hu2] at hu2n
            exact absurd hu2n hu
        case pos =>
          have hcond : ¬ ((!(JSNum.num u).isFinite || (JSNum.num u).ltZero)
              = true) := by
            simp [JSNum.isFinite, JSNum.ltZero, not_lt.mpr hu]
          rw [if_neg hcond]
          cases hcur : po.currency with
          | notCurrency t =>
            have hmc : Money.create (.num u) (CurrencyArg.notCurrency t) =
                .error ⟨"Currency must be an instance of Currency"⟩ := by
              simp only [Money.create]
              rw [dif_pos hu]
            rw [hmc]
            simp [h1, h2, hcur]
          | undef =>
            have hmc : Money.create (.num u) CurrencyArg.undef =
                .error ⟨"Currency must be an instance of Currency"⟩ := by
              simp only [Money.create]
              rw [dif_pos hu]
            rw [hmc]
            simp [h1, h2, hcur]
          | val c =>
            obtain ⟨m, hm, -, -⟩ := Money.create_ok hu c
            rw [hm]
            dsimp only
            cases hit : PurchaseOrderItem.create (.str po.id) productId
                quantity (.money m) with
            | error e =>
              dsimp only
              constructor
              · intro h
                exact absurd h (by simp)
              · rintro ⟨-, -, -, -, hid, hp, hq⟩
                obtain ⟨it, hit2⟩ :=
                  (PurchaseOrderItem.createItem_ok_iff (.str po.id) productId
                    quantity (.money m)).mpr
                    ⟨⟨po.id, rfl, hid⟩, hp, hq, ⟨m, rfl⟩⟩
                rw [hit2] at hit
                exact absurd hit (by simp)
            | ok item =>
              dsimp only
              have hconds := (PurchaseOrderItem.createItem_ok_iff (.str po.id)
                productId quantity (.money m)).mp ⟨item, hit⟩
              obtain ⟨⟨s, hsid, hsne⟩, hp, hq, -⟩ := hconds
              injection hsid with hsid
              constructor
              · intro _
                exact ⟨h1, h2, ⟨u, rfl, hu⟩, ⟨c, rfl⟩,
                  by rw [hsid]; exact hsne, hp, hq⟩
              · intro _
                rfl

/-- C7 counterexample: on a fresh Draft order with zero items and a valid
non-negative finite unit price, `addItem` with quantity 0 still fails with
a ValidationError (raised by the item constructor), so the three listed
conditions are not the only failure causes and the "exactly when" claim
does not hold. -/
theorem claim_C7_counterexample :
    examplePO.state = .Draft ∧
    examplePO.items.length = 0 ∧
    (JSNum.num 1).isFinite = true ∧
    (JSNum.num 1).ltZero = false ∧
    (∃ e, (examplePO.addItem (.valid ⟨"prod-1"⟩) (.num 0) (.num 1)).1 =
      .error e) := by
  refine ⟨rfl, rfl, rfl, by simp [JSNum.ltZero], ?_⟩
  refine except_error_of_not_ok ?_
  rintro ⟨u, hu⟩
  cases u
  obtain ⟨-, -, -, -, -, -, ⟨q, hq, -, hpos, -⟩⟩ :=
    (PurchaseOrder.addItem_ok_iff examplePO (.valid ⟨"prod-1"⟩) (.num 0)
      (.num 1)).mp hu
  injection hq with hq
  rw [← hq] at hpos
  exact absurd hpos (by norm_num)

/-- A Draft USD order with the given items. -/
def draftPOWith (its : List PurchaseOrderItem) : PurchaseOrder :=
  { examplePO with items := its }

/-- C7 (amended): `addItem` fails with a ValidationError exactly when the
state is not Draft, the item count is already 50, the unit price is not a
non-negative finite number, the stored currency is not a `Currency`, the
order id is empty, the product id is not a `ProductId`, or the quantity is
not an integer in `[1, 1000]`; in particular on a Draft order with 49
items and valid arguments the 50th item is accepted, while with 50 items
the 51st is rejected. -/
theorem claim_C7_addItem_conditions :
    (∀ (po : PurchaseOrder) (productId : ProductIdArg)
        (quantity unitPrice : JSNum),
      (po.addItem productId quantity unitPrice).1 = .ok () ↔
        (po.state = .Draft ∧ po.items.length < PurchaseOrder.MAX_ITEMS ∧
         (∃ u : ℚ, unitPrice = .num u ∧ 0 ≤ u) ∧
         (∃ c, po.currency = .val c) ∧ po.id.isEmpty = false ∧
         (∃ p, productId = .valid p) ∧
         (∃ q : ℚ, quantity = .num q ∧ q.den = 1 ∧ 0 < q ∧ q ≤ 1000))) ∧
    ((draftPOWith (List.replicate 49 exItem1)).addItem (.valid ⟨"prod-1"⟩)
      (.num 1) (.num 1)).1 = .ok () ∧
    (∃ e, ((draftPOWith (List.replicate 50 exItem1)).addItem
      (.valid ⟨"prod-1"⟩) (.num 1) (.num 1)).1 = .error e) := by
  refine ⟨PurchaseOrder.addItem_ok_iff, ?_, ?_⟩
  · exact (PurchaseOrder.addItem_ok_iff _ _ _ _).mpr
      ⟨rfl, by simp [draftPOWith, examplePO, PurchaseOrder.MAX_ITEMS],
       ⟨1, rfl, by norm_num⟩, ⟨.USD, rfl⟩, rfl, ⟨⟨"prod-1"⟩, rfl⟩,
       ⟨1, rfl, rfl, by norm_num, by norm_num⟩⟩
  · refine except_error_of_not_ok ?_
    rintro ⟨u, hu⟩
    cases u
    obtain ⟨-, hlen, -⟩ := (PurchaseOrder.addItem_ok_iff _ _ _ _).mp hu
    simp [draftPOWith, examplePO, PurchaseOrder.MAX_ITEMS] at hlen
